import Mathlib

/-!
Verification of the text-to-PPT generation pipeline (`app.py`).

The Python source is shallowly embedded: its pure string post-processing
becomes Lean functions on `String`/`List Char`; calls to the two text
backends become an explicit `ProviderResult` value supplied by the caller;
code that can raise (the `int(color[i:j], 16)` conversions) returns
`Option`; the `python-pptx` document is abstracted to the structured slide
list the code populates (text, per-element styles, border, image flag).
-/

/-- The ASCII whitespace characters removed by Python `str.strip()` with no
argument (used as the blank-line test `line.strip()` on app.py lines 35 and
51 and for trimming on lines 80 and 90). -/
def pyWhitespace : List Char := [' ', '\t', '\n', '\r', '\x0b', '\x0c']

/-- Python `l.strip(chars)` on the character list of a string: drop
characters belonging to `chars` from both edges. -/
def pyStripList (chars : List Char) (l : List Char) : List Char :=
  ((l.dropWhile (chars.contains ·)).reverse.dropWhile (chars.contains ·)).reverse

/-- Python `s.strip(chars)` at the `String` level. -/
def pyStrip (chars : List Char) (s : String) : String :=
  (pyStripList chars s.toList).asString

/-- The strip set `"-•1234567890. "` of `line.strip("-•1234567890. ")`
(app.py lines 35 and 51). -/
def titleStripChars : List Char :=
  ['-', '•', '1', '2', '3', '4', '5', '6', '7', '8', '9', '0', '.', ' ']

/-- Python `s.split(sep)` for a one-character separator `sep`, on character
lists: keeps empty segments, and the empty string splits to one empty
segment (used for `result.split("\n")` on lines 34 and 51 and
`result.split(":")` on line 90). -/
def splitChar (sep : Char) : List Char → List (List Char)
  | [] => [[]]
  | c :: rest =>
    if c = sep then [] :: splitChar sep rest
    else
      match splitChar sep rest with
      | [] => [[c]]
      | h :: t => (c :: h) :: t

/-- Outcome of one call to a text backend: either the raw generated text, or
an exception carrying a message (any `Exception` raised by the OpenAI client
or the local model call). -/
inductive ProviderResult where
  | ok (text : String)
  | err (msg : String)
  deriving DecidableEq

/-- The title post-processing shared verbatim by the hosted path (app.py
lines 51-52) and `fallback_titles` (lines 34-36): split the raw text on
newlines, keep the non-blank lines, strip the enumeration/bullet characters
from each, keep the non-empty results, and take the first 5. -/
def parseTitles (raw : String) : List String :=
  let lines := splitChar '\n' raw.toList
  let titles := (lines.filter (fun l => !(pyStripList pyWhitespace l).isEmpty)).map
    (fun l => pyStripList titleStripChars l)
  ((titles.filter (fun t => !t.isEmpty)).take 5).map List.asString

/-- `generate_slide_titles` (app.py lines 21-61). `openai_api_key` follows
Python truthiness (`None` and `""` select the fallback). `hostedResult` is
the behaviour of the hosted backend when consulted; `fallbackText` is the
raw text the local model produces in `fallback_titles`. -/
def generate_slide_titles (openai_api_key : Option String)
    (hostedResult : ProviderResult) (fallbackText : String) : List String :=
  if openai_api_key.getD "" ≠ "" then
    match hostedResult with
    | ProviderResult.ok content =>
      let titles := parseTitles content
      if titles.isEmpty then parseTitles fallbackText else titles
    | ProviderResult.err _ => parseTitles fallbackText
  else
    parseTitles fallbackText

/-- The sentinel returned by `generate_slide_content` on any exception
(app.py line 94). -/
def contentSentinel : String := "(Content generation failed)"

/-- The local-model post-processing of `generate_slide_content` (app.py
line 90): `result.split(":")[-1].strip()` — the segment after the last
colon, whitespace-trimmed. `split(":")` never yields an empty list, so the
Python index `[-1]` is total and is modelled by `getLastD`. -/
def processLocalContent (raw : String) : String :=
  (pyStripList pyWhitespace ((splitChar ':' raw.toList).getLastD [])).asString

/-- `generate_slide_content` (app.py lines 63-94): on a hosted-path success
return the trimmed response, on a local-path success return the
last-colon-segment trimmed, and on any exception return the sentinel. -/
def generate_slide_content (openai_api_key : Option String)
    (providerResult : ProviderResult) : String :=
  match providerResult with
  | ProviderResult.err _ => contentSentinel
  | ProviderResult.ok raw =>
    if openai_api_key.getD "" ≠ "" then (pyStripList pyWhitespace raw.toList).asString
    else processLocalContent raw

/-- Value of one base-16 digit as accepted by Python `int(_, 16)`. -/
def hexVal (c : Char) : Option Nat :=
  if '0' ≤ c ∧ c ≤ '9' then some (c.toNat - '0'.toNat)
  else if 'a' ≤ c ∧ c ≤ 'f' then some (c.toNat - 'a'.toNat + 10)
  else if 'A' ≤ c ∧ c ≤ 'F' then some (c.toNat - 'A'.toNat + 10)
  else none

/-- Python `int(s, 16)` restricted to bare hexadecimal-digit strings (the
form the slices of a color string take): `none` models the `ValueError` on
an empty or non-hexadecimal argument. The surrounding-whitespace, sign and
`0x`-prefix allowances of full Python `int` are not needed by the slices
the code performs and are not modelled. -/
def pyIntHex (s : String) : Option Nat :=
  if s.toList.isEmpty then none
  else s.toList.foldl (fun acc c => acc.bind (fun a => (hexVal c).map (fun v => 16 * a + v))) (some 0)

/-- Python slice `s[a:b]` for `0 ≤ a ≤ b` (clamping, never raising). -/
def pySlice (s : String) (a b : Nat) : String := ((s.toList.drop a).take (b - a)).asString

/-- An RGB triple as produced for `RGBColor`. -/
abbrev Rgb := Nat × Nat × Nat

/-- The conversion `RGBColor(int(c[1:3], 16), int(c[3:5], 16), int(c[5:7], 16))`
performed on every color string in `create_ppt` (app.py lines 106, 111, 119,
125, 134, 139); `none` models the `ValueError` escaping `create_ppt`. -/
def rgbOfHex (color : String) : Option Rgb :=
  match pyIntHex (pySlice color 1 3), pyIntHex (pySlice color 3 5), pyIntHex (pySlice color 5 7) with
  | some r, some g, some b => some (r, g, b)
  | _, _, _ => none

/-- One content slide as populated by the loop of `create_ppt` (app.py lines
114-148): background fill, title text with its (color, size) style, body
placeholder text with its (color, size) style, optional border
(color, width) on the body placeholder, and whether the default image was
inserted. -/
structure ContentSlide where
  bg : Rgb
  title : String
  titleStyle : Rgb × Int
  body : String
  bodyStyle : Rgb × Int
  border : Option (Rgb × Int)
  image : Bool
  deriving DecidableEq

/-- A slide of the produced document: the single title slide (app.py lines
100-111) or a content slide. -/
inductive Slide where
  | titleSlide (bg : Rgb) (text : String) (titleStyle : Rgb × Int)
  | contentSlide (c : ContentSlide)
  deriving DecidableEq

/-- The border step of `create_ppt` (app.py lines 136-140):
`if border_color and border_width > 0:` parse the border color and record
(color, width); otherwise no border. The outer `some` is absence of a
`ValueError` from the color parse. -/
def mkBorder (border_color : Option String) (border_width : Int) :
    Option (Option (Rgb × Int)) :=
  if border_color.getD "" ≠ "" ∧ border_width > 0 then
    (rgbOfHex (border_color.getD "")).map (fun c => some (c, border_width))
  else
    some none

/-- One iteration of the content-slide loop of `create_ppt` (app.py lines
114-148). The background, title-run and body-run color parses are modelled
as performed unconditionally on each slide. -/
def mkContentSlide (bg_color title_color content_color : String)
    (title_size content_size : Int) (border_color : Option String) (border_width : Int)
    (imageAvailable : Bool) (title content : String) : Option ContentSlide := do
  let bg ← rgbOfHex bg_color
  let tcol ← rgbOfHex title_color
  let ccol ← rgbOfHex content_color
  let bord ← mkBorder border_color border_width
  pure ⟨bg, title, (tcol, title_size), content, (ccol, content_size), bord, imageAvailable⟩

/-- The content-slide loop `for title, content in zip(titles, contents)`
(app.py line 114), building slides in order and propagating the first
color-parse failure. -/
def buildSlides (mk : String → String → Option ContentSlide) :
    List (String × String) → Option (List Slide)
  | [] => some []
  | p :: rest => do
    let s ← mk p.1 p.2
    let others ← buildSlides mk rest
    pure (Slide.contentSlide s :: others)

/-- The filename filter of `create_ppt` (app.py line 150):
`c.isalnum() or c in (" ", "_", "-")`, with `isalnum` modelled on the ASCII
range. -/
def allowedFilenameChar (c : Char) : Bool := c.isAlphanum || c == ' ' || c == '_' || c == '-'

/-- `safe_topic` (app.py line 150): keep only the allowed characters, in
order. -/
def sanitizeTopic (topic : String) : String := (topic.toList.filter allowedFilenameChar).asString

/-- The output path of `create_ppt` (app.py line 151). -/
def pptPath (topic : String) : String :=
  "generated_ppt/" ++ sanitizeTopic topic ++ "_presentation.pptx"

/-- `create_ppt` (app.py lines 96-153): title slide from the topic, one
content slide per `zip(titles, contents)` pair, then the derived save path.
`none` models a `ValueError` escaping from a color parse. -/
def create_ppt (topic : String) (titles contents : List String)
    (bg_color title_color content_color : String) (title_size content_size : Int)
    (border_color : Option String) (border_width : Int) (imageAvailable : Bool) :
    Option (List Slide × String) := do
  let bg ← rgbOfHex bg_color
  let tcol ← rgbOfHex title_color
  let rest ← buildSlides
    (mkContentSlide bg_color title_color content_color title_size content_size
      border_color border_width imageAvailable)
    (titles.zip contents)
  pure (Slide.titleSlide bg topic (tcol, title_size) :: rest, pptPath topic)

/-- Outcome of one press of the generate button in `main` (app.py lines
176-188). -/
inductive PipelineResult where
  | emptyTopic
  | titleFailure
  | success (slides : List Slide) (path : String)
  | pptError
  deriving DecidableEq

/-- The pipeline of `main` after the generate button (app.py lines 176-188):
reject an empty topic, generate titles, abort with a terminal error when no
titles were produced, otherwise generate one content string per title and
assemble the deck. `contentResults` gives the backend behaviour observed for
each title's content call. (Named `main` in the source; Lean reserves that
name for executables.) -/
def main_pipeline (topic : String) (openai_api_key : Option String)
    (hostedTitleResult : ProviderResult) (fallbackTitleText : String)
    (contentResults : String → ProviderResult)
    (bg_color title_color content_color : String) (title_size content_size : Int)
    (border_color : Option String) (border_width : Int) (imageAvailable : Bool) :
    PipelineResult :=
  if topic = "" then PipelineResult.emptyTopic
  else
    let titles := generate_slide_titles openai_api_key hostedTitleResult fallbackTitleText
    if titles.isEmpty then PipelineResult.titleFailure
    else
      let contents := titles.map (fun t =>
        generate_slide_content openai_api_key (contentResults t))
      match create_ppt topic titles contents bg_color title_color content_color
          title_size content_size border_color border_width imageAvailable with
      | some (slides, path) => PipelineResult.success slides path
      | none => PipelineResult.pptError

example : parseTitles "1. Alpha\n2. Beta\n\n- Gamma" = ["Alpha", "Beta", "Gamma"] := by decide

example : parseTitles "" = [] := by decide

example : generate_slide_content none (ProviderResult.ok "about x: hello") = "hello" := by decide

example : pptPath "AI/ML: 2024!" = "generated_ppt/AIML 2024_presentation.pptx" := by decide

/-! Helper lemmas about the string primitives. -/

theorem toList_asString (l : List Char) : l.asString.toList = l := rfl

theorem asString_toList (s : String) : s.toList.asString = s := rfl

theorem asString_ne_empty (l : List Char) (h : l ≠ []) : l.asString ≠ "" := by
  intro hc
  exact h (congrArg String.toList hc)

theorem head?_dropWhile (p : Char → Bool) (l : List Char) :
    ∀ x, (l.dropWhile p).head? = some x → p x = false := by
  induction l with
  | nil => intro x h; simp [List.dropWhile] at h
  | cons a t ih =>
    intro x h
    rw [List.dropWhile_cons] at h
    by_cases hpa : p a
    · rw [if_pos hpa] at h
      exact ih x h
    · rw [if_neg hpa] at h
      simp only [List.head?_cons, Option.some.injEq] at h
      subst h
      simpa using hpa

theorem dropWhile_eq_self (p : Char → Bool) (l : List Char)
    (h : ∀ x, l.head? = some x → p x = false) : l.dropWhile p = l := by
  cases l with
  | nil => rfl
  | cons a t =>
    rw [List.dropWhile_cons]
    simp [h a rfl]

theorem mem_of_mem_dropWhile (p : Char → Bool) (l : List Char) (x : Char)
    (h : x ∈ l.dropWhile p) : x ∈ l :=
  (List.dropWhile_suffix p).subset h

theorem getLast?_dropWhile (p : Char → Bool) (l : List Char)
    (h : l.dropWhile p ≠ []) : (l.dropWhile p).getLast? = l.getLast? := by
  obtain ⟨w, hw⟩ := List.dropWhile_suffix p (l := l)
  conv_rhs => rw [← hw]
  rw [List.getLast?_append_of_ne_nil _ h]

theorem pyStripList_getLast? (chars : List Char) (l : List Char) :
    ∀ x, (pyStripList chars l).getLast? = some x → chars.contains x = false := by
  intro x h
  unfold pyStripList at h
  rw [List.getLast?_reverse] at h
  exact head?_dropWhile _ _ x h

theorem pyStripList_head? (chars : List Char) (l : List Char) :
    ∀ x, (pyStripList chars l).head? = some x → chars.contains x = false := by
  intro x h
  unfold pyStripList at h
  rw [List.head?_reverse] at h
  have hne : (l.dropWhile (chars.contains ·)).reverse.dropWhile (chars.contains ·) ≠ [] := by
    intro hnil
    rw [hnil] at h
    simp at h
  rw [getLast?_dropWhile _ _ hne, List.getLast?_reverse] at h
  exact head?_dropWhile _ _ x h

theorem pyStripList_eq_self (chars : List Char) (l : List Char)
    (h1 : ∀ x, l.head? = some x → chars.contains x = false)
    (h2 : ∀ x, l.getLast? = some x → chars.contains x = false) :
    pyStripList chars l = l := by
  unfold pyStripList
  rw [dropWhile_eq_self _ l h1]
  rw [dropWhile_eq_self]
  · exact List.reverse_reverse l
  · intro x hx
    rw [List.head?_reverse] at hx
    exact h2 x hx

theorem pyStripList_idem (chars : List Char) (l : List Char) :
    pyStripList chars (pyStripList chars l) = pyStripList chars l :=
  pyStripList_eq_self chars _ (pyStripList_head? chars l) (pyStripList_getLast? chars l)

theorem mem_of_mem_pyStripList (chars : List Char) (l : List Char) (x : Char)
    (h : x ∈ pyStripList chars l) : x ∈ l := by
  unfold pyStripList at h
  rw [List.mem_reverse] at h
  have h2 := mem_of_mem_dropWhile _ _ _ h
  rw [List.mem_reverse] at h2
  exact mem_of_mem_dropWhile _ _ _ h2

theorem splitChar_ne_nil (sep : Char) (l : List Char) : splitChar sep l ≠ [] := by
  cases l with
  | nil => simp [splitChar]
  | cons c rest =>
    unfold splitChar
    by_cases h : c = sep
    · simp [h]
    · rw [if_neg h]
      cases hs : splitChar sep rest <;> simp

theorem not_mem_of_mem_splitChar (sep : Char) (l : List Char) :
    ∀ seg ∈ splitChar sep l, sep ∉ seg := by
  induction l with
  | nil =>
    intro seg hseg
    simp [splitChar] at hseg
    simp [hseg]
  | cons c rest ih =>
    intro seg hseg
    unfold splitChar at hseg
    by_cases h : c = sep
    · rw [if_pos h] at hseg
      rcases List.mem_cons.mp hseg with h1 | h1
      · simp [h1]
      · exact ih seg h1
    · rw [if_neg h] at hseg
      cases hs : splitChar sep rest with
      | nil => exact absurd hs (splitChar_ne_nil sep rest)
      | cons hd tl =>
        rw [hs] at hseg
        have hhd : hd ∈ splitChar sep rest := by
          rw [hs]
          exact List.mem_cons_self hd tl
        rcases List.mem_cons.mp hseg with h1 | h1
        · subst h1
          intro hmem
          rcases List.mem_cons.mp hmem with h2 | h2
          · exact h h2.symm
          · exact ih hd hhd h2
        · have : seg ∈ splitChar sep rest := by
            rw [hs]
            exact List.mem_cons_of_mem hd h1
          exact ih seg this

theorem getLastD_mem {α : Type} (l : List α) (d : α) (h : l ≠ []) :
    l.getLastD d ∈ l := by
  induction l generalizing d with
  | nil => exact absurd rfl h
  | cons a t ih =>
    rw [List.getLastD_cons]
    cases t with
    | nil => simp [List.getLastD]
    | cons b u => exact List.mem_cons_of_mem a (ih b (by simp))

/-! Helper lemmas about the title post-processing. -/

theorem parseTitles_length_le (raw : String) : (parseTitles raw).length ≤ 5 := by
  unfold parseTitles
  simp only [List.length_map]
  exact List.length_take_le 5 _

theorem parseTitles_ne_empty (raw : String) : ∀ t ∈ parseTitles raw, t ≠ "" := by
  intro t ht
  unfold parseTitles at ht
  simp only [List.mem_map] at ht
  obtain ⟨u, hu, ht⟩ := ht
  subst ht
  have hu2 := List.take_subset 5 _ hu
  have hu3 := (List.mem_filter.mp hu2).2
  apply asString_ne_empty
  intro hnil
  rw [hnil] at hu3
  simp at hu3

theorem generate_slide_titles_eq_parse (key : Option String) (hosted : ProviderResult)
    (fb : String) : ∃ raw, generate_slide_titles key hosted fb = parseTitles raw := by
  unfold generate_slide_titles
  by_cases hk : key.getD "" ≠ ""
  · rw [if_pos hk]
    cases hosted with
    | ok content =>
      by_cases he : (parseTitles content).isEmpty
      · exact ⟨fb, by simp [he]⟩
      · exact ⟨content, by simp [he]⟩
    | err m => exact ⟨fb, rfl⟩
  · rw [if_neg hk]
    exact ⟨fb, rfl⟩

theorem generate_slide_titles_empty (key : Option String) (hosted : ProviderResult)
    (fb : String) (h : generate_slide_titles key hosted fb = []) : parseTitles fb = [] := by
  unfold generate_slide_titles at h
  by_cases hk : key.getD "" ≠ ""
  · rw [if_pos hk] at h
    cases hosted with
    | ok content =>
      by_cases he : (parseTitles content).isEmpty
      · simpa [he] using h
      · simp [he] at h
        rw [h] at he
        simp at he
    | err m => exact h
  · rw [if_neg hk] at h
    exact h

/-! Claims about the two generators. -/

/-- Claim C1: for every provider behaviour and every raw output string,
`generate_slide_titles` returns a list (never null, enforced by the total
return type) of at most 5 strings in which every element is non-empty, and
the result is empty only when the title parse of the fallback output itself
produced no usable lines. -/
theorem C1_titles_at_most_five_nonempty (key : Option String) (hosted : ProviderResult)
    (fb : String) :
    (generate_slide_titles key hosted fb).length ≤ 5 ∧
    (generate_slide_titles key hosted fb).all (fun t => !(t == "")) = true ∧
    (generate_slide_titles key hosted fb = [] → parseTitles fb = []) := by
  obtain ⟨raw, hraw⟩ := generate_slide_titles_eq_parse key hosted fb
  refine ⟨?_, ?_, generate_slide_titles_empty key hosted fb⟩
  · rw [hraw]
    exact parseTitles_length_le raw
  · rw [hraw, List.all_eq_true]
    intro t ht
    simpa using parseTitles_ne_empty raw t ht

theorem C1_witness :
    (generate_slide_titles none (ProviderResult.err "") "1. A\n2. B").length ≤ 5 ∧
    parseTitles "" = [] :=
  ⟨(C1_titles_at_most_five_nonempty none (ProviderResult.err "") "1. A\n2. B").1,
   (C1_titles_at_most_five_nonempty none (ProviderResult.err "") "").2.2 (by decide)⟩

/-- Claim C2 (counterexample): the line `"Intro."` carries no stripped
character at its left edge and is already whitespace-trimmed, yet the
normalization of `generate_slide_titles` removes its trailing period —
`strip` acts on both edges, so the claim that stripping only affects the
left edge, and that such a line passes through unchanged post-trim, fails. -/
theorem C2_counterexample :
    ("Intro.".toList.head?.all (fun c => !titleStripChars.contains c)) = true ∧
    pyStrip pyWhitespace "Intro." = "Intro." ∧
    pyStrip titleStripChars "Intro." = "Intro" ∧
    parseTitles "Intro." = ["Intro"] ∧
    ("Intro" : String) ≠ "Intro." := by decide

/-- Claim C2 (amended): title normalization strips the marker characters from
both edges of a line, so it is the identity on a line carrying no marker
character at either edge: such a line passes through unchanged. -/
theorem C2_clean_line_unchanged (s : String)
    (h1 : s.toList.head?.all (fun c => !titleStripChars.contains c) = true)
    (h2 : s.toList.getLast?.all (fun c => !titleStripChars.contains c) = true) :
    pyStrip titleStripChars s = s := by
  unfold pyStrip
  rw [pyStripList_eq_self]
  · exact asString_toList s
  · intro x hx
    rw [hx] at h1
    simpa using h1
  · intro x hx
    rw [hx] at h2
    simpa using h2

theorem C2_witness : pyStrip titleStripChars "Intro" = "Intro" :=
  C2_clean_line_unchanged "Intro" (by decide) (by decide)

/-- Claim C3 (counterexample): when the local model's raw output ends with the
colon cue and generates nothing after it, `generate_slide_content` returns
the empty string — neither a non-empty paragraph nor the sentinel. -/
theorem C3_counterexample :
    generate_slide_content none
      (ProviderResult.ok
        "Generate a professional PowerPoint paragraph about X (4-5 sentences):") = "" ∧
    contentSentinel ≠ "" := by decide

/-- Claim C3 (amended): `generate_slide_content` never lets an exception
escape and never returns null: a provider error yields exactly the sentinel
`"(Content generation failed)"`, and a provider success yields the
whitespace-trimmed processed text — which may be the empty string. -/
theorem C3_sentinel_or_trimmed (key : Option String) (pr : ProviderResult) :
    (∀ m, pr = ProviderResult.err m → generate_slide_content key pr = contentSentinel) ∧
    (generate_slide_content key pr = contentSentinel ∨
      pyStrip pyWhitespace (generate_slide_content key pr) = generate_slide_content key pr) := by
  constructor
  · intro m hm
    subst hm
    rfl
  · cases pr with
    | err m => exact Or.inl rfl
    | ok raw =>
      right
      show pyStrip pyWhitespace (generate_slide_content key (ProviderResult.ok raw)) = _
      simp only [generate_slide_content]
      by_cases hk : key.getD "" ≠ ""
      · rw [if_pos hk]
        unfold pyStrip
        rw [toList_asString, pyStripList_idem]
      · rw [if_neg hk]
        unfold processLocalContent pyStrip
        rw [toList_asString, pyStripList_idem]

theorem C3_witness :
    generate_slide_content none (ProviderResult.err "boom") = contentSentinel :=
  (C3_sentinel_or_trimmed none (ProviderResult.err "boom")).1 "boom" rfl

/-- Claim C10: on the no-credential success path the returned paragraph is
exactly the whitespace-trimmed segment after the last colon of the raw model
output, and therefore never contains a colon character. -/
theorem C10_local_content_no_colon (raw : String) :
    generate_slide_content none (ProviderResult.ok raw) =
      (pyStripList pyWhitespace ((splitChar ':' raw.toList).getLastD [])).asString ∧
    (generate_slide_content none (ProviderResult.ok raw)).toList.all
      (fun c => !(c == ':')) = true := by
  have heq : generate_slide_content none (ProviderResult.ok raw) =
      (pyStripList pyWhitespace ((splitChar ':' raw.toList).getLastD [])).asString := rfl
  refine ⟨heq, ?_⟩
  rw [heq, List.all_eq_true]
  intro c hc
  have hc2 : c ∈ pyStripList pyWhitespace ((splitChar ':' raw.toList).getLastD []) := hc
  have hc3 := mem_of_mem_pyStripList _ _ _ hc2
  have hlast := getLastD_mem (splitChar ':' raw.toList) [] (splitChar_ne_nil ':' raw.toList)
  have hno := not_mem_of_mem_splitChar ':' raw.toList _ hlast
  have hne : c ≠ ':' := fun he => hno (he ▸ hc3)
  simpa using hne

/-! Helper lemmas about hex-color parsing. -/

theorem foldl_hex_isSome (l : List Char) (h : ∀ c ∈ l, (hexVal c).isSome) :
    ∀ a : Nat,
      (l.foldl (fun acc c => acc.bind (fun a => (hexVal c).map (fun v => 16 * a + v)))
        (some a)).isSome := by
  induction l with
  | nil => intro a; rfl
  | cons c t ih =>
    intro a
    rw [List.foldl_cons]
    obtain ⟨v, hv⟩ := Option.isSome_iff_exists.mp (h c (List.mem_cons_self c t))
    have hstep : (some a).bind (fun a => (hexVal c).map (fun v => 16 * a + v)) =
        some (16 * a + v) := by
      rw [Option.some_bind, hv]
      rfl
    rw [hstep]
    exact ih (fun d hd => h d (List.mem_cons_of_mem c hd)) (16 * a + v)

theorem pyIntHex_isSome (l : List Char) (hne : l ≠ [])
    (h : ∀ c ∈ l, (hexVal c).isSome) : (pyIntHex l.asString).isSome := by
  unfold pyIntHex
  rw [toList_asString, if_neg (by simpa using hne)]
  exact foldl_hex_isSome l h 0

/-- A well-formed color string: `"#"` followed by exactly 6 hexadecimal
digits. -/
def wellFormedHex (s : String) : Prop :=
  s.toList.length = 7 ∧ s.toList.head? = some '#' ∧ ∀ c ∈ s.toList.tail, (hexVal c).isSome

instance (s : String) : Decidable (wellFormedHex s) := by
  unfold wellFormedHex
  infer_instance

theorem slice_hex_isSome (s : String) (a : Nat) (hwf : wellFormedHex s)
    (ha : 1 ≤ a) (hb : a ≤ 5) : (pyIntHex (pySlice s a (a + 2))).isSome := by
  obtain ⟨hlen, hhead, hhex⟩ := hwf
  unfold pySlice
  have h2 : a + 2 - a = 2 := by omega
  rw [h2]
  apply pyIntHex_isSome
  · intro hnil
    have hlen0 := congrArg List.length hnil
    rw [List.length_take, List.length_drop, hlen] at hlen0
    simp only [List.length_nil] at hlen0
    omega
  · intro c hc
    have hc2 : c ∈ s.toList.drop a := List.take_subset 2 _ hc
    have hdd : (s.toList.drop 1).drop (a - 1) = s.toList.drop a := by
      rw [List.drop_drop]
      congr 1
      omega
    rw [← hdd] at hc2
    have hc3 : c ∈ s.toList.drop 1 := List.drop_subset _ _ hc2
    rw [List.drop_one] at hc3
    exact hhex c hc3

theorem rgbOfHex_isSome (s : String) (hwf : wellFormedHex s) : (rgbOfHex s).isSome := by
  have h1 := slice_hex_isSome s 1 hwf (by omega) (by omega)
  have h3 := slice_hex_isSome s 3 hwf (by omega) (by omega)
  have h5 := slice_hex_isSome s 5 hwf (by omega) (by omega)
  obtain ⟨r, hr⟩ := Option.isSome_iff_exists.mp h1
  obtain ⟨g, hg⟩ := Option.isSome_iff_exists.mp h3
  obtain ⟨b, hb⟩ := Option.isSome_iff_exists.mp h5
  have hr2 : pyIntHex (pySlice s 1 3) = some r := hr
  have hg2 : pyIntHex (pySlice s 3 5) = some g := hg
  have hb2 : pyIntHex (pySlice s 5 7) = some b := hb
  unfold rgbOfHex
  rw [hr2, hg2, hb2]
  rfl

/-! Helper lemmas about deck assembly. -/

theorem mkBorder_nonpos (bc : Option String) (bw : Int) (h : bw ≤ 0) :
    mkBorder bc bw = some none := by
  have hcon : ¬(bc.getD "" ≠ "" ∧ bw > 0) := fun hc => absurd hc.2 (by omega)
  unfold mkBorder
  rw [if_neg hcon]

theorem mkBorder_isSome (bc : Option String) (bw : Int)
    (h : bc.getD "" ≠ "" ∧ bw > 0 → (rgbOfHex (bc.getD "")).isSome) :
    (mkBorder bc bw).isSome := by
  unfold mkBorder
  by_cases hc : bc.getD "" ≠ "" ∧ bw > 0
  · rw [if_pos hc]
    obtain ⟨c, hcv⟩ := Option.isSome_iff_exists.mp (h hc)
    rw [hcv]
    rfl
  · rw [if_neg hc]
    rfl

theorem mkContentSlide_eq (bgc tc cc : String) (ts cs : Int) (bc : Option String) (bw : Int)
    (img : Bool) (t c : String) (bg tcol ccol : Rgb) (bord : Option (Rgb × Int))
    (hbg : rgbOfHex bgc = some bg) (htc : rgbOfHex tc = some tcol)
    (hcc : rgbOfHex cc = some ccol) (hbord : mkBorder bc bw = some bord) :
    mkContentSlide bgc tc cc ts cs bc bw img t c =
      some ⟨bg, t, (tcol, ts), c, (ccol, cs), bord, img⟩ := by
  unfold mkContentSlide
  rw [hbg, htc, hcc, hbord]
  rfl

theorem mkContentSlide_border (bgc tc cc : String) (ts cs : Int) (bc : Option String)
    (bw : Int) (img : Bool) (t c : String) (slide : ContentSlide)
    (bord : Option (Rgb × Int)) (hbord : mkBorder bc bw = some bord)
    (h : mkContentSlide bgc tc cc ts cs bc bw img t c = some slide) :
    slide.border = bord := by
  unfold mkContentSlide at h
  cases hbg : rgbOfHex bgc with
  | none => rw [hbg] at h; simp at h
  | some bg =>
    rw [hbg] at h
    cases htc : rgbOfHex tc with
    | none => rw [htc] at h; simp at h
    | some tcol =>
      rw [htc] at h
      cases hcc : rgbOfHex cc with
      | none => rw [hcc] at h; simp at h
      | some ccol =>
        rw [hcc, hbord] at h
        simp at h
        rw [← h]

theorem buildSlides_eq_map (mk : String → String → Option ContentSlide)
    (g : String × String → ContentSlide) (l : List (String × String))
    (h : ∀ p ∈ l, mk p.1 p.2 = some (g p)) :
    buildSlides mk l = some (l.map (fun p => Slide.contentSlide (g p))) := by
  induction l with
  | nil => rfl
  | cons p rest ih =>
    have hp := h p (List.mem_cons_self p rest)
    have hr := ih (fun q hq => h q (List.mem_cons_of_mem p hq))
    unfold buildSlides
    rw [hp, hr]
    rfl

theorem buildSlides_mem (mk : String → String → Option ContentSlide)
    (l : List (String × String)) (r : List Slide) (h : buildSlides mk l = some r) :
    ∀ s ∈ r, ∃ p ∈ l, ∃ cs, mk p.1 p.2 = some cs ∧ s = Slide.contentSlide cs := by
  induction l generalizing r with
  | nil =>
    intro s hs
    unfold buildSlides at h
    cases h
    simp at hs
  | cons p rest ih =>
    intro s hs
    unfold buildSlides at h
    cases hmk : mk p.1 p.2 with
    | none => rw [hmk] at h; simp at h
    | some cs =>
      rw [hmk] at h
      cases hbs : buildSlides mk rest with
      | none => rw [hbs] at h; simp at h
      | some others =>
        rw [hbs] at h
        simp at h
        rw [← h] at hs
        rcases List.mem_cons.mp hs with h1 | h1
        · exact ⟨p, List.mem_cons_self p rest, cs, hmk, h1⟩
        · obtain ⟨q, hq, cs2, hcs2, hs2⟩ := ih others hbs s h1
          exact ⟨q, List.mem_cons_of_mem p hq, cs2, hcs2, hs2⟩

/-- Full characterization of a successful `create_ppt` run under parseable
colors: title slide from the topic followed by one content slide per zipped
(title, content) pair, plus the sanitized path. -/
theorem create_ppt_eq (topic : String) (titles contents : List String)
    (bgc tc cc : String) (ts cs : Int) (bc : Option String) (bw : Int) (img : Bool)
    (bg tcol ccol : Rgb) (bord : Option (Rgb × Int))
    (hbg : rgbOfHex bgc = some bg) (htc : rgbOfHex tc = some tcol)
    (hcc : rgbOfHex cc = some ccol) (hbord : mkBorder bc bw = some bord) :
    create_ppt topic titles contents bgc tc cc ts cs bc bw img =
      some (Slide.titleSlide bg topic (tcol, ts) ::
        (titles.zip contents).map (fun p =>
          Slide.contentSlide ⟨bg, p.1, (tcol, ts), p.2, (ccol, cs), bord, img⟩),
        pptPath topic) := by
  have hbuild := buildSlides_eq_map
    (mkContentSlide bgc tc cc ts cs bc bw img)
    (fun p => ⟨bg, p.1, (tcol, ts), p.2, (ccol, cs), bord, img⟩)
    (titles.zip contents)
    (fun p _ => mkContentSlide_eq bgc tc cc ts cs bc bw img p.1 p.2 bg tcol ccol bord
      hbg htc hcc hbord)
  unfold create_ppt
  rw [hbg, htc, hbuild]
  rfl

theorem length_zip_min {α β : Type} (l1 : List α) (l2 : List β) :
    (l1.zip l2).length = min l1.length l2.length := by
  induction l1 generalizing l2 with
  | nil => simp
  | cons a t ih =>
    cases l2 with
    | nil => simp
    | cons b u => simp [List.zip_cons_cons, ih u, Nat.succ_min_succ]

theorem zip_getElem? {α β : Type} (l1 : List α) (l2 : List β) (i : Nat) (a : α) (b : β)
    (h1 : l1[i]? = some a) (h2 : l2[i]? = some b) : (l1.zip l2)[i]? = some (a, b) := by
  induction l1 generalizing l2 i with
  | nil => simp at h1
  | cons x t ih =>
    cases l2 with
    | nil => simp at h2
    | cons y u =>
      cases i with
      | zero =>
        simp only [List.getElem?_cons_zero, Option.some.injEq] at h1 h2
        simp [List.zip_cons_cons, h1, h2]
      | succ j =>
        simp only [List.getElem?_cons_succ] at h1 h2
        simp only [List.zip_cons_cons, List.getElem?_cons_succ]
        exact ih u j h1 h2

theorem create_ppt_path (topic : String) (titles contents : List String)
    (bgc tc cc : String) (tsz csz : Int) (bc : Option String) (bw : Int) (img : Bool)
    (slides : List Slide) (path : String)
    (h : create_ppt topic titles contents bgc tc cc tsz csz bc bw img =
      some (slides, path)) : path = pptPath topic := by
  unfold create_ppt at h
  cases hbg : rgbOfHex bgc with
  | none => rw [hbg] at h; simp at h
  | some bg =>
    rw [hbg] at h
    cases htc : rgbOfHex tc with
    | none => rw [htc] at h; simp at h
    | some tcol =>
      rw [htc] at h
      cases hbs : buildSlides (mkContentSlide bgc tc cc tsz csz bc bw img)
          (titles.zip contents) with
      | none => rw [hbs] at h; simp at h
      | some rest =>
        rw [hbs] at h
        simp at h
        exact h.2.symm

/-! Claims about deck assembly and the pipeline. -/

/-- Claim C4: with `len(contents) = len(titles)` and parseable colors,
`create_ppt` produces exactly `1 + len(titles)` slides; slide 0 is the title
slide carrying the topic, and slide `i+1` carries `titles[i]` as its title
and `contents[i]` as its body-placeholder text. -/
theorem C4_create_ppt_layout (topic : String) (titles contents : List String)
    (bgc tc cc : String) (tsz csz : Int) (bc : Option String) (bw : Int) (img : Bool)
    (bg tcol ccol : Rgb) (bord : Option (Rgb × Int))
    (hbg : rgbOfHex bgc = some bg) (htc : rgbOfHex tc = some tcol)
    (hcc : rgbOfHex cc = some ccol) (hbord : mkBorder bc bw = some bord)
    (hlen : contents.length = titles.length) :
    ∃ slides : List Slide,
      create_ppt topic titles contents bgc tc cc tsz csz bc bw img =
        some (slides, pptPath topic) ∧
      slides.length = 1 + titles.length ∧
      slides[0]? = some (Slide.titleSlide bg topic (tcol, tsz)) ∧
      ∀ i t c, titles[i]? = some t → contents[i]? = some c →
        slides[i + 1]? =
          some (Slide.contentSlide ⟨bg, t, (tcol, tsz), c, (ccol, csz), bord, img⟩) := by
  refine ⟨_, create_ppt_eq topic titles contents bgc tc cc tsz csz bc bw img bg tcol ccol
    bord hbg htc hcc hbord, ?_, List.getElem?_cons_zero, ?_⟩
  · rw [List.length_cons, List.length_map, length_zip_min, hlen, Nat.min_self]
    omega
  · intro i t c h1 h2
    rw [List.getElem?_cons_succ, List.getElem?_map,
      zip_getElem? titles contents i t c h1 h2]
    rfl

theorem C4_witness :
    ∃ slides : List Slide,
      create_ppt "Topic" ["A", "B"] ["x", "y"] "#FFFFFF" "#000000" "#112233" 30 16 none 0
        false = some (slides, pptPath "Topic") ∧
      slides.length = 1 + 2 := by
  obtain ⟨slides, h1, h2, h3, h4⟩ := C4_create_ppt_layout "Topic" ["A", "B"] ["x", "y"]
    "#FFFFFF" "#000000" "#112233" 30 16 none 0 false (255, 255, 255) (0, 0, 0) (17, 34, 51)
    none (by decide) (by decide) (by decide) (by decide) (by decide)
  exact ⟨slides, h1, h2⟩

/-- Claim C5: whenever `border_width ≤ 0`, any document `create_ppt` produces
has no border on any content slide's body placeholder, whatever
`border_color` holds. -/
theorem C5_no_border_when_nonpos (topic : String) (titles contents : List String)
    (bgc tc cc : String) (tsz csz : Int) (bc : Option String) (bw : Int) (img : Bool)
    (slides : List Slide) (path : String) (hbw : bw ≤ 0)
    (h : create_ppt topic titles contents bgc tc cc tsz csz bc bw img =
      some (slides, path)) :
    ∀ s : ContentSlide, Slide.contentSlide s ∈ slides → s.border = none := by
  intro s hs
  unfold create_ppt at h
  cases hbg : rgbOfHex bgc with
  | none => rw [hbg] at h; simp at h
  | some bg =>
    rw [hbg] at h
    cases htc : rgbOfHex tc with
    | none => rw [htc] at h; simp at h
    | some tcol =>
      rw [htc] at h
      cases hbs : buildSlides (mkContentSlide bgc tc cc tsz csz bc bw img)
          (titles.zip contents) with
      | none => rw [hbs] at h; simp at h
      | some rest =>
        rw [hbs] at h
        simp at h
        rw [← h.1] at hs
        rcases List.mem_cons.mp hs with h3 | h3
        · exact absurd h3 (by simp)
        · obtain ⟨p, hp, cs2, hcs2, hseq⟩ := buildSlides_mem _ _ _ hbs _ h3
          injection hseq with h4
          subst h4
          exact mkContentSlide_border bgc tc cc tsz csz bc bw img p.1 p.2 s none
            (mkBorder_nonpos bc bw hbw) hcs2

theorem C5_witness :
    (⟨(255, 255, 255), "A", ((0, 0, 0), 30), "x", ((0, 0, 0), 16), none, false⟩ :
      ContentSlide).border = none :=
  C5_no_border_when_nonpos "T" ["A"] ["x"] "#FFFFFF" "#000000" "#000000" 30 16
    (some "ZZZ") 0 false
    [Slide.titleSlide (255, 255, 255) "T" ((0, 0, 0), 30),
     Slide.contentSlide ⟨(255, 255, 255), "A", ((0, 0, 0), 30), "x", ((0, 0, 0), 16),
       none, false⟩]
    "generated_ppt/T_presentation.pptx" (by decide) (by decide) _ (by decide)

/-- Claim C6: the saved path is exactly `"generated_ppt/"` followed by the
topic filtered to alphanumerics, spaces, underscores and hyphens (in order)
followed by `"_presentation.pptx"`; the derivation is a pure function of the
topic, hence deterministic, and the worked example `"AI/ML: 2024!"`
sanitizes to `"AIML 2024"`. -/
theorem C6_path_sanitized (topic : String) (titles contents : List String)
    (bgc tc cc : String) (tsz csz : Int) (bc : Option String) (bw : Int) (img : Bool)
    (slides : List Slide) (path : String)
    (h : create_ppt topic titles contents bgc tc cc tsz csz bc bw img =
      some (slides, path)) :
    path = "generated_ppt/" ++ (topic.toList.filter allowedFilenameChar).asString ++
      "_presentation.pptx" ∧
    pptPath "AI/ML: 2024!" = "generated_ppt/AIML 2024_presentation.pptx" := by
  constructor
  · rw [create_ppt_path topic titles contents bgc tc cc tsz csz bc bw img slides path h]
    rfl
  · decide

theorem C6_witness :
    ("generated_ppt/T_presentation.pptx" : String) =
      "generated_ppt/" ++ ("T".toList.filter allowedFilenameChar).asString ++
        "_presentation.pptx" :=
  (C6_path_sanitized "T" [] [] "#FFFFFF" "#000000" "#000000" 30 16 none 0 false
    [Slide.titleSlide (255, 255, 255) "T" ((0, 0, 0), 30)]
    "generated_ppt/T_presentation.pptx" (by decide)).1

/-- Claim C7: with a non-empty topic, if title generation yields no titles
the pipeline stops with the terminal failure and no artifact is produced
(assembly is never reached); if titles are non-empty and assembly succeeds,
the deck is produced — whatever the content strings are, including when
every one is the failure sentinel. -/
theorem C7_pipeline_gate (topic : String) (key : Option String) (hosted : ProviderResult)
    (fb : String) (cr : String → ProviderResult) (bgc tc cc : String) (tsz csz : Int)
    (bc : Option String) (bw : Int) (img : Bool) (htopic : topic ≠ "") :
    (generate_slide_titles key hosted fb = [] →
      main_pipeline topic key hosted fb cr bgc tc cc tsz csz bc bw img =
        PipelineResult.titleFailure) ∧
    (∀ slides path,
      create_ppt topic (generate_slide_titles key hosted fb)
          ((generate_slide_titles key hosted fb).map
            (fun t => generate_slide_content key (cr t)))
          bgc tc cc tsz csz bc bw img = some (slides, path) →
      generate_slide_titles key hosted fb ≠ [] →
      main_pipeline topic key hosted fb cr bgc tc cc tsz csz bc bw img =
        PipelineResult.success slides path) := by
  constructor
  · intro hempty
    simp [main_pipeline, htopic, hempty]
  · intro slides path hcp hne
    simp only [main_pipeline, if_neg htopic]
    rw [if_neg (by simpa [List.isEmpty_iff] using hne)]
    rw [hcp]

theorem C7_witness :
    main_pipeline "T" none (ProviderResult.err "") "" (fun _ => ProviderResult.err "x")
      "#FFFFFF" "#000000" "#000000" 30 16 none 0 false = PipelineResult.titleFailure ∧
    main_pipeline "T" none (ProviderResult.err "") "Alpha\nBeta"
      (fun _ => ProviderResult.err "x") "#FFFFFF" "#000000" "#000000" 30 16 none 0
      false =
      PipelineResult.success
        [Slide.titleSlide (255, 255, 255) "T" ((0, 0, 0), 30),
         Slide.contentSlide ⟨(255, 255, 255), "Alpha", ((0, 0, 0), 30),
           "(Content generation failed)", ((0, 0, 0), 16), none, false⟩,
         Slide.contentSlide ⟨(255, 255, 255), "Beta", ((0, 0, 0), 30),
           "(Content generation failed)", ((0, 0, 0), 16), none, false⟩]
        "generated_ppt/T_presentation.pptx" :=
  ⟨(C7_pipeline_gate "T" none (ProviderResult.err "") "" (fun _ => ProviderResult.err "x")
      "#FFFFFF" "#000000" "#000000" 30 16 none 0 false (by decide)).1 (by decide),
   (C7_pipeline_gate "T" none (ProviderResult.err "") "Alpha\nBeta"
      (fun _ => ProviderResult.err "x") "#FFFFFF" "#000000" "#000000" 30 16 none 0 false
      (by decide)).2 _ _ (by decide) (by decide)⟩

/-- Claim C8: when every supplied color is a well-formed `#` + 6 hex digits
(the border color being required only when a border is actually drawn),
every hex-to-RGB conversion in `create_ppt` succeeds and `create_ppt` does
not fail on account of color parsing. -/
theorem C8_wellformed_colors_parse (topic : String) (titles contents : List String)
    (bgc tc cc : String) (tsz csz : Int) (bc : Option String) (bw : Int) (img : Bool)
    (hbg : wellFormedHex bgc) (htc : wellFormedHex tc) (hcc : wellFormedHex cc)
    (hbc : bc.getD "" ≠ "" ∧ bw > 0 → wellFormedHex (bc.getD "")) :
    (rgbOfHex bgc).isSome ∧ (rgbOfHex tc).isSome ∧ (rgbOfHex cc).isSome ∧
    (create_ppt topic titles contents bgc tc cc tsz csz bc bw img).isSome := by
  have h1 := rgbOfHex_isSome bgc hbg
  have h2 := rgbOfHex_isSome tc htc
  have h3 := rgbOfHex_isSome cc hcc
  have h4 : (mkBorder bc bw).isSome :=
    mkBorder_isSome bc bw (fun hcond => rgbOfHex_isSome _ (hbc hcond))
  refine ⟨h1, h2, h3, ?_⟩
  obtain ⟨bg, hbg2⟩ := Option.isSome_iff_exists.mp h1
  obtain ⟨tcol, htc2⟩ := Option.isSome_iff_exists.mp h2
  obtain ⟨ccol, hcc2⟩ := Option.isSome_iff_exists.mp h3
  obtain ⟨bord, hbord2⟩ := Option.isSome_iff_exists.mp h4
  rw [create_ppt_eq topic titles contents bgc tc cc tsz csz bc bw img bg tcol ccol bord
    hbg2 htc2 hcc2 hbord2]
  rfl

theorem C8_witness :
    (rgbOfHex "#A1B2C3").isSome ∧ (rgbOfHex "#000000").isSome ∧
    (rgbOfHex "#FFFFFF").isSome ∧
    (create_ppt "T" ["A"] ["x"] "#A1B2C3" "#000000" "#FFFFFF" 30 16 (some "#0A0B0C") 2
      true).isSome :=
  C8_wellformed_colors_parse "T" ["A"] ["x"] "#A1B2C3" "#000000" "#FFFFFF" 30 16
    (some "#0A0B0C") 2 true (by decide) (by decide) (by decide) (fun _ => by decide)

/-- Claim C9: `create_ppt` accepts titles and contents of different lengths
without failing (given parseable colors): it produces exactly
`1 + min(len(titles), len(contents))` slides, pairing positionally and
silently dropping the excess of the longer list. -/
theorem C9_zip_truncation (topic : String) (titles contents : List String)
    (bgc tc cc : String) (tsz csz : Int) (bc : Option String) (bw : Int) (img : Bool)
    (bg tcol ccol : Rgb) (bord : Option (Rgb × Int))
    (hbg : rgbOfHex bgc = some bg) (htc : rgbOfHex tc = some tcol)
    (hcc : rgbOfHex cc = some ccol) (hbord : mkBorder bc bw = some bord) :
    ∃ slides : List Slide,
      create_ppt topic titles contents bgc tc cc tsz csz bc bw img =
        some (slides, pptPath topic) ∧
      slides.length = 1 + min titles.length contents.length ∧
      ∀ i t c, titles[i]? = some t → contents[i]? = some c →
        slides[i + 1]? =
          some (Slide.contentSlide ⟨bg, t, (tcol, tsz), c, (ccol, csz), bord, img⟩) := by
  refine ⟨_, create_ppt_eq topic titles contents bgc tc cc tsz csz bc bw img bg tcol ccol
    bord hbg htc hcc hbord, ?_, ?_⟩
  · rw [List.length_cons, List.length_map, length_zip_min]
    omega
  · intro i t c h1 h2
    rw [List.getElem?_cons_succ, List.getElem?_map,
      zip_getElem? titles contents i t c h1 h2]
    rfl

theorem C9_witness :
    ∃ slides : List Slide,
      create_ppt "T" ["A", "B"] ["x"] "#FFFFFF" "#000000" "#000000" 30 16 none 0 false =
        some (slides, pptPath "T") ∧
      slides.length = 1 + 1 := by
  obtain ⟨slides, h1, h2, h3⟩ := C9_zip_truncation "T" ["A", "B"] ["x"] "#FFFFFF"
    "#000000" "#000000" 30 16 none 0 false (255, 255, 255) (0, 0, 0) (0, 0, 0) none
    (by decide) (by decide) (by decide) (by decide)
  exact ⟨slides, h1, h2⟩
